import Mathlib

/-!
# steelseries-sonar-go: a shallow embedding of the Sonar client

The embedding follows `sonar.go` and `errors.go`.

* Go strings are Lean `String`s, Go maps are association lists read with
  `List.lookup`, a variadic `...string` parameter is a `List String`, and a
  pointer parameter that may be `nil` is an `Option`.
* `float64` is the type `Float64` below: NaN, the two infinities, or a finite
  value. Only the comparisons `<` and `>` of the source are used, and they
  follow IEEE-754 (any comparison with NaN is false).
* The operating system, the HTTP library and `encoding/json` are outside the
  repository. They are gathered in `Env`; every operation threads the list of
  HTTP requests issued so far (`log`). A request whose URL `http.NewRequest`
  refuses is never issued and does not enter the log.
-/

set_option linter.dupNamespace false

namespace SonarGo

/-! ## Values -/

/-- Go `float64`. A finite value is given by the rational number it denotes
(every finite binary64 value is a rational; the sign of zero is not kept). -/
inductive Float64 where
  | nan
  | inf (negative : Bool)
  | finite (q : ℚ)
deriving DecidableEq

namespace Float64

/-- Go `a < b` on `float64`: false as soon as one operand is NaN. -/
def lt : Float64 → Float64 → Bool
  | nan, _ => false
  | _, nan => false
  | inf true, inf true => false
  | inf true, _ => true
  | inf false, _ => false
  | finite _, inf true => false
  | finite _, inf false => true
  | finite p, finite q => decide (p < q)

/-- Go `a > b` on `float64`. -/
def gt (a b : Float64) : Bool := lt b a

/-- The constant `0` of the source. -/
def zero : Float64 := finite 0

/-- The constant `1` of the source. -/
def one : Float64 := finite 1

/-- The constant `-1` of the source. -/
def negOne : Float64 := finite (-1)

/-- The real interval test `lo ≤ v ≤ hi` on the value a `float64` denotes;
NaN and the infinities lie in no bounded interval. -/
def inRange (lo hi : ℚ) : Float64 → Prop
  | finite q => lo ≤ q ∧ q ≤ hi
  | _ => False

instance (lo hi : ℚ) (v : Float64) : Decidable (inRange lo hi v) := by
  cases v <;> unfold inRange <;> infer_instance

end Float64

/-- A value of Go type `interface{}` as produced by `encoding/json`. -/
inductive JsonValue where
  | null
  | bool (b : Bool)
  | number (x : Float64)
  | string (s : String)
  | array (items : List JsonValue)
  | object (fields : List (String × JsonValue))

/-- Go `map[string]interface{}`. -/
abbrev JsonMap := List (String × JsonValue)

/-- The name the Go run time prints for the dynamic type of a decoded value. -/
def JsonValue.goType : JsonValue → String
  | .null => "nil"
  | .bool _ => "bool"
  | .number _ => "float64"
  | .string _ => "string"
  | .array _ => "[]interface {}"
  | .object _ => "map[string]interface {}"

/-! ## errors.go -/

/-- The error kinds of `errors.go`; `other` stands for an error of the
standard library that the client returns unchanged (transport, IO, decoding). -/
inductive SonarError where
  | EnginePathNotFoundError
  | ServerNotAccessibleError (StatusCode : Int)
  | SonarNotEnabledError
  | ServerNotReadyError
  | ServerNotRunningError
  | WebServerAddressNotFoundError
  | ChannelNotFoundError (Channel : String)
  | SliderNotFoundError (Slider : String)
  | InvalidVolumeError (Volume : Float64)
  | InvalidMixVolumeError (MixVolume : Float64)
  | other (msg : String)
deriving DecidableEq

/-- How a call ends: a value with a nil error, a non-nil error, or a run-time
panic of the Go program. -/
inductive Outcome (α : Type) where
  | ok (a : α)
  | error (e : SonarError)
  | panic (msg : String)

/-- The call returned a nil error. -/
def Outcome.isOk {α : Type} : Outcome α → Bool
  | .ok _ => true
  | _ => false

/-! ## sonar.go: types -/

/-- The struct `Sonar`, without the transport handle `httpClient`. -/
structure Sonar where
  ChannelNames : List String
  StreamerSliderNames : List String
  VolumePath : String
  AppDataPath : String
  BaseURL : String
  WebServerAddress : String
  StreamerMode : Bool
deriving DecidableEq

/-- The struct `CoreProps`. -/
structure CoreProps where
  GGEncryptedAddress : String
deriving DecidableEq

/-- The struct `SubApp`. -/
structure SubApp where
  IsEnabled : Bool
  IsReady : Bool
  IsRunning : Bool
  Metadata : JsonMap

/-- The struct `SubApps`. -/
structure SubApps where
  SubApps : List (String × SubApp)

/-! ## The environment -/

/-- An HTTP request: method and URL string. -/
structure Request where
  method : String
  url : String
deriving DecidableEq

/-- A response body, given by what the decoders used by the client yield on it:
`json.NewDecoder(..).Decode` into `SubApps`, `io.ReadAll` followed by
`json.Unmarshal` into a `string`, and `Decode` into `map[string]interface{}`.
`Except.error` carries the message of the decoding error. -/
structure Body where
  asSubApps : Except String SubApps
  asString : Except String String
  asMap : Except String JsonMap

/-- What becomes of a request. `invalid`: `http.NewRequest` (also the one inside
`httpClient.Get`) returns an error because the URL does not parse, and nothing
is issued. `failure`: the request is issued and `httpClient.Do` returns an
error. `response`: the request is issued and answered with a status code and a
body. -/
inductive HttpResult where
  | invalid (msg : String)
  | failure (msg : String)
  | response (StatusCode : Int) (body : Body)

/-- What the discovery file at a path looks like to `loadBaseURL`. -/
inductive FileState where
  | notExist
  | openError (msg : String)
  | decodeError (msg : String)
  | content (coreProps : CoreProps)

/-- Everything outside the repository. `server log req` is what becomes of the
request `req` after the requests in `log` have been issued; `formatFloat` is
the text `json.Marshal` produces for a finite number. -/
structure Env where
  getenv : String → String
  joinPath : List String → String
  file : String → FileState
  server : List Request → Request → HttpResult
  formatFloat : ℚ → String

/-- The calls `httpClient.Get(url)` and `http.NewRequest(method, url, nil)`
followed by `httpClient.Do(req)`: a request that cannot be built is not issued
and leaves the log as it is, any other request is issued and recorded. -/
def send (env : Env) (log : List Request) (req : Request) : HttpResult × List Request :=
  match env.server log req with
  | .invalid msg => (.invalid msg, log)
  | .failure msg => (.failure msg, log ++ [req])
  | .response status body => (.response status body, log ++ [req])

/-- The function `json.Marshal` on a `float64`: NaN and the infinities are
unsupported values. -/
def jsonMarshalFloat (env : Env) : Float64 → Except String String
  | .finite q => .ok (env.formatFloat q)
  | .nan => .error "json: unsupported value: NaN"
  | .inf false => .error "json: unsupported value: +Inf"
  | .inf true => .error "json: unsupported value: -Inf"

/-- The function `json.Marshal` on a `bool`. -/
def jsonMarshalBool (b : Bool) : Except String String :=
  .ok (if b then "true" else "false")

/-- The pattern `x, _ := json.Marshal(v)` followed by `string(x)`: the error is
dropped and a failed call leaves the empty byte slice. -/
def marshalled : Except String String → String
  | .ok s => s
  | .error _ => ""

/-! ## sonar.go: functions -/

/-- The function `contains`. -/
def contains : List String → String → Bool
  | [], _ => false
  | s :: rest, item => if s == item then true else contains rest item

/-- The classic value of `VolumePath`. -/
def classicVolumePath : String := "/volumeSettings/classic"

/-- The streamer value of `VolumePath`. -/
def streamerVolumePath : String := "/volumeSettings/streamer"

/-- The method `IsStreamerMode`. -/
def IsStreamerMode (env : Env) (s : Sonar) (log : List Request) :
    Outcome Bool × List Request :=
  let r := send env log ⟨"GET", s.WebServerAddress ++ "/mode/"⟩
  match r.1 with
  | .invalid msg => (.error (.other msg), r.2)
  | .failure msg => (.error (.other msg), r.2)
  | .response status body =>
    if status ≠ 200 then (.error (.ServerNotAccessibleError status), r.2)
    else
      match body.asString with
      | .error msg => (.error (.other msg), r.2)
      | .ok mode => (.ok (mode == "stream"), r.2)

/-- The method `SetStreamerMode`; the second component is the client after the
call. -/
def SetStreamerMode (env : Env) (s : Sonar) (log : List Request) (streamerMode : Bool) :
    Outcome Bool × Sonar × List Request :=
  let mode := if streamerMode then "stream" else "classic"
  let url := s.WebServerAddress ++ "/mode/" ++ mode
  let r := send env log ⟨"PUT", url⟩
  match r.1 with
  | .invalid msg => (.error (.other msg), s, r.2)
  | .failure msg => (.error (.other msg), s, r.2)
  | .response status body =>
    if status ≠ 200 then (.error (.ServerNotAccessibleError status), s, r.2)
    else
      match body.asString with
      | .error msg => (.error (.other msg), s, r.2)
      | .ok resultMode =>
        let s1 := { s with StreamerMode := resultMode == "stream" }
        let s2 :=
          if s1.StreamerMode then { s1 with VolumePath := streamerVolumePath }
          else { s1 with VolumePath := classicVolumePath }
        (.ok s2.StreamerMode, s2, r.2)

/-- The method `loadBaseURL`. -/
def loadBaseURL (env : Env) (s : Sonar) : Outcome Unit × Sonar :=
  match env.file s.AppDataPath with
  | .notExist => (.error .EnginePathNotFoundError, s)
  | .openError msg => (.error (.other msg), s)
  | .decodeError msg => (.error (.other msg), s)
  | .content coreProps =>
    (.ok (), { s with BaseURL := "https://" ++ coreProps.GGEncryptedAddress })

/-- Lines 207-217 of `loadServerAddress`: the endpoint is read from the
metadata. The type assertion `webServerAddress.(string)` panics on a value
that is not a string. -/
def extractWebServerAddress (s : Sonar) (metadata : JsonMap) : Outcome Unit × Sonar :=
  match metadata.lookup "webServerAddress" with
  | none => (.error .WebServerAddressNotFoundError, s)
  | some (.string addr) =>
    let s1 := { s with WebServerAddress := addr }
    if s1.WebServerAddress == "" || s1.WebServerAddress == "null" then
      (.error .WebServerAddressNotFoundError, s1)
    else (.ok (), s1)
  | some v => (.panic ("interface conversion: interface {} is " ++ v.goType ++ ", not string"), s)

/-- Lines 190-217 of `loadServerAddress`: what happens once the directory has
been decoded. -/
def checkSubApps (s : Sonar) (subApps : SubApps) : Outcome Unit × Sonar :=
  match subApps.SubApps.lookup "sonar" with
  | none => (.error .SonarNotEnabledError, s)
  | some sonarApp =>
    if !sonarApp.IsEnabled then (.error .SonarNotEnabledError, s)
    else if !sonarApp.IsReady then (.error .ServerNotReadyError, s)
    else if !sonarApp.IsRunning then (.error .ServerNotRunningError, s)
    else extractWebServerAddress s sonarApp.Metadata

/-- The method `loadServerAddress`. -/
def loadServerAddress (env : Env) (s : Sonar) (log : List Request) :
    Outcome Unit × Sonar × List Request :=
  let r := send env log ⟨"GET", s.BaseURL ++ "/subApps"⟩
  match r.1 with
  | .invalid msg => (.error (.other msg), s, r.2)
  | .failure msg => (.error (.other msg), s, r.2)
  | .response status body =>
    if status ≠ 200 then (.error (.ServerNotAccessibleError status), s, r.2)
    else
      match body.asSubApps with
      | .error msg => (.error (.other msg), s, r.2)
      | .ok subApps =>
        let c := checkSubApps s subApps
        (c.1, c.2, r.2)

/-- The method `GetVolumeData`. -/
def GetVolumeData (env : Env) (s : Sonar) (log : List Request) :
    Outcome JsonMap × List Request :=
  let volumeInfoURL := s.WebServerAddress ++ s.VolumePath
  let r := send env log ⟨"GET", volumeInfoURL⟩
  match r.1 with
  | .invalid msg => (.error (.other msg), r.2)
  | .failure msg => (.error (.other msg), r.2)
  | .response status body =>
    if status ≠ 200 then (.error (.ServerNotAccessibleError status), r.2)
    else
      match body.asMap with
      | .error msg => (.error (.other msg), r.2)
      | .ok volumeData => (.ok volumeData, r.2)

/-- The slider a call uses: the first variadic argument, else "streaming". -/
def resolveSlider (streamerSlider : List String) : String :=
  match streamerSlider with
  | [] => "streaming"
  | first :: _ => first

/-- The tail shared by the three setters: `http.NewRequest("PUT", url, nil)`,
whose error is returned before anything is issued, then `httpClient.Do`, the
status check, and the body of a 200 response decoded into a map. -/
def putAndDecode (env : Env) (log : List Request) (url : String) :
    Outcome JsonMap × List Request :=
  let r := send env log ⟨"PUT", url⟩
  match r.1 with
  | .invalid msg => (.error (.other msg), r.2)
  | .failure msg => (.error (.other msg), r.2)
  | .response status body =>
    if status ≠ 200 then (.error (.ServerNotAccessibleError status), r.2)
    else
      match body.asMap with
      | .error msg => (.error (.other msg), r.2)
      | .ok result => (.ok result, r.2)

/-- The URL `SetVolume` builds once its checks have passed. -/
def volumeURL (env : Env) (s : Sonar) (channel : String) (volume : Float64)
    (slider : String) : String :=
  let fullVolumePath := if s.StreamerMode then s.VolumePath ++ ("/" ++ slider) else s.VolumePath
  let volumeJSON := marshalled (jsonMarshalFloat env volume)
  s.WebServerAddress ++ fullVolumePath ++ "/" ++ channel ++ "/Volume/" ++ volumeJSON

/-- The method `SetVolume`. -/
def SetVolume (env : Env) (s : Sonar) (log : List Request) (channel : String)
    (volume : Float64) (streamerSlider : List String) : Outcome JsonMap × List Request :=
  if !contains s.ChannelNames channel then (.error (.ChannelNotFoundError channel), log)
  else
    let slider := resolveSlider streamerSlider
    if s.StreamerMode && !contains s.StreamerSliderNames slider then
      (.error (.SliderNotFoundError slider), log)
    else if Float64.lt volume Float64.zero || Float64.gt volume Float64.one then
      (.error (.InvalidVolumeError volume), log)
    else putAndDecode env log (volumeURL env s channel volume slider)

/-- The URL `MuteChannel` builds once its checks have passed. -/
def muteURL (s : Sonar) (channel : String) (muted : Bool) (slider : String) : String :=
  let fullVolumePath := if s.StreamerMode then s.VolumePath ++ ("/" ++ slider) else s.VolumePath
  let muteKeyword := if s.StreamerMode then "isMuted" else "Mute"
  let mutedJSON := marshalled (jsonMarshalBool muted)
  s.WebServerAddress ++ fullVolumePath ++ "/" ++ channel ++ "/" ++ muteKeyword ++ "/" ++ mutedJSON

/-- The method `MuteChannel`. -/
def MuteChannel (env : Env) (s : Sonar) (log : List Request) (channel : String)
    (muted : Bool) (streamerSlider : List String) : Outcome JsonMap × List Request :=
  if !contains s.ChannelNames channel then (.error (.ChannelNotFoundError channel), log)
  else
    let slider := resolveSlider streamerSlider
    if s.StreamerMode && !contains s.StreamerSliderNames slider then
      (.error (.SliderNotFoundError slider), log)
    else putAndDecode env log (muteURL s channel muted slider)

/-- The method `GetChatMixData`. -/
def GetChatMixData (env : Env) (s : Sonar) (log : List Request) :
    Outcome JsonMap × List Request :=
  let chatMixURL := s.WebServerAddress ++ "/chatMix"
  let r := send env log ⟨"GET", chatMixURL⟩
  match r.1 with
  | .invalid msg => (.error (.other msg), r.2)
  | .failure msg => (.error (.other msg), r.2)
  | .response status body =>
    if status ≠ 200 then (.error (.ServerNotAccessibleError status), r.2)
    else
      match body.asMap with
      | .error msg => (.error (.other msg), r.2)
      | .ok chatMixData => (.ok chatMixData, r.2)

/-- The method `SetChatMix`. -/
def SetChatMix (env : Env) (s : Sonar) (log : List Request) (mixVolume : Float64) :
    Outcome JsonMap × List Request :=
  if Float64.lt mixVolume Float64.negOne || Float64.gt mixVolume Float64.one then
    (.error (.InvalidMixVolumeError mixVolume), log)
  else
    let mixVolumeJSON := marshalled (jsonMarshalFloat env mixVolume)
    putAndDecode env log (s.WebServerAddress ++ "/chatMix?balance=" ++ mixVolumeJSON)

/-- The channel names `New` installs. -/
def channelNames : List String :=
  ["master", "game", "chatRender", "media", "aux", "chatCapture"]

/-- The slider names `New` installs. -/
def streamerSliderNames : List String := ["streaming", "monitoring"]

/-- Lines 40-59 of `New`: the struct literal and the discovery-file path. -/
def newSonar (env : Env) (appDataPath : Option String) : Sonar :=
  let s : Sonar :=
    { ChannelNames := channelNames
      StreamerSliderNames := streamerSliderNames
      VolumePath := classicVolumePath
      AppDataPath := ""
      BaseURL := ""
      WebServerAddress := ""
      StreamerMode := false }
  match appDataPath with
  | some path => { s with AppDataPath := path }
  | none =>
    let programData := env.getenv "ProgramData"
    let programData := if programData == "" then "C:\\ProgramData" else programData
    { s with AppDataPath :=
        env.joinPath [programData, "SteelSeries", "SteelSeries Engine 3", "coreProps.json"] }

/-- Lines 79-83 of `New`: the volume path follows the mode just stored. -/
def finishNew (s : Sonar) : Sonar :=
  if s.StreamerMode then { s with VolumePath := streamerVolumePath } else s

/-- The constructor `New`: a client, or (nil client) an error or a panic. -/
def New (env : Env) (log : List Request) (appDataPath : Option String)
    (streamerMode : Option Bool) : Outcome Sonar × List Request :=
  let s := newSonar env appDataPath
  match loadBaseURL env s with
  | (.error e, _) => (.error e, log)
  | (.panic msg, _) => (.panic msg, log)
  | (.ok _, s) =>
    match loadServerAddress env s log with
    | (.error e, _, log) => (.error e, log)
    | (.panic msg, _, log) => (.panic msg, log)
    | (.ok _, s, log) =>
      match streamerMode with
      | none =>
        match IsStreamerMode env s log with
        | (.error e, log) => (.error e, log)
        | (.panic msg, log) => (.panic msg, log)
        | (.ok isStreamer, log) => (.ok (finishNew { s with StreamerMode := isStreamer }), log)
      | some b => (.ok (finishNew { s with StreamerMode := b }), log)

/-! ## The client as a state machine -/

/-- A call of one method of the client, with its arguments. -/
inductive Op where
  | IsStreamerMode
  | SetStreamerMode (streamerMode : Bool)
  | loadBaseURL
  | loadServerAddress
  | GetVolumeData
  | SetVolume (channel : String) (volume : Float64) (streamerSlider : List String)
  | MuteChannel (channel : String) (muted : Bool) (streamerSlider : List String)
  | GetChatMixData
  | SetChatMix (mixVolume : Float64)

/-- The client and the request log after one call, whatever the call returned. -/
def step (env : Env) (st : Sonar × List Request) : Op → Sonar × List Request
  | .IsStreamerMode => (st.1, (IsStreamerMode env st.1 st.2).2)
  | .SetStreamerMode b => (SetStreamerMode env st.1 st.2 b).2
  | .loadBaseURL => ((loadBaseURL env st.1).2, st.2)
  | .loadServerAddress => (loadServerAddress env st.1 st.2).2
  | .GetVolumeData => (st.1, (GetVolumeData env st.1 st.2).2)
  | .SetVolume c v sl => (st.1, (SetVolume env st.1 st.2 c v sl).2)
  | .MuteChannel c m sl => (st.1, (MuteChannel env st.1 st.2 c m sl).2)
  | .GetChatMixData => (st.1, (GetChatMixData env st.1 st.2).2)
  | .SetChatMix v => (st.1, (SetChatMix env st.1 st.2 v).2)

/-- The states a client can be in: those a successful `New` returns, and those
reached from them by calling methods. -/
inductive Reachable (env : Env) : Sonar × List Request → Prop where
  | init (log : List Request) (appDataPath : Option String) (streamerMode : Option Bool)
      (s : Sonar) (log1 : List Request)
      (h : New env log appDataPath streamerMode = (.ok s, log1)) : Reachable env (s, log1)
  | call (st : Sonar × List Request) (op : Op) (h : Reachable env st) :
      Reachable env (step env st op)

/-- The three facts about a client that every method relies on. -/
def Inv (s : Sonar) : Prop :=
  s.ChannelNames = channelNames ∧ s.StreamerSliderNames = streamerSliderNames ∧
    s.VolumePath = (if s.StreamerMode then streamerVolumePath else classicVolumePath)

instance (s : Sonar) : Decidable (Inv s) := by
  unfold Inv
  infer_instance

/-! ## Concrete environments used to run the embedding -/

/-- A directory in which Sonar is enabled, ready and running and announces the
given metadata. -/
def directoryWith (metadata : JsonMap) : SubApps :=
  { SubApps := [("sonar", { IsEnabled := true, IsReady := true, IsRunning := true,
                            Metadata := metadata })] }

/-- A body that decodes to the given directory, mode string and (empty) map. -/
def bodyWith (dir : SubApps) (mode : String) : Body :=
  { asSubApps := .ok dir, asString := .ok mode, asMap := .ok [] }

/-- The metadata of a service listening on `http://127.0.0.1:1`. -/
def goodMetadata : JsonMap := [("webServerAddress", .string "http://127.0.0.1:1")]

/-- The text of the numbers used below: whole numbers and one half are written
as `json.Marshal` writes them; the text given to other values is not relied on. -/
def demoFormat (q : ℚ) : String :=
  match q.num, q.den with
  | n, 1 => toString n
  | 1, 2 => "0.5"
  | n, d => toString n ++ "/" ++ toString d

/-- The first test of `url.Parse` in `net/url`: an ASCII control character
(a byte below 0x20, or 0x7f) anywhere in the URL. -/
def stringContainsCTLByte (url : String) : Bool :=
  url.data.any (fun c => decide (c.toNat < 32) || decide (c.toNat = 127))

/-- A machine on which a URL with a control character is refused by
`http.NewRequest` and every other request is answered with status 200; a mode
request is answered with the mode named in `reply`. -/
def envWith (metadata : JsonMap) (reply : Request → String) : Env :=
  { getenv := fun _ => ""
    joinPath := fun parts => String.intercalate "/" parts
    file := fun _ => .content { GGEncryptedAddress := "127.0.0.1:6327" }
    server := fun _ req =>
      if stringContainsCTLByte req.url then .invalid "net/url: invalid control character in URL"
      else .response 200 (bodyWith (directoryWith metadata) (reply req))
    formatFloat := demoFormat }

/-- A server that echoes the mode a PUT on the mode endpoint asks for. -/
def echoReply (req : Request) : String :=
  if req.url == "http://127.0.0.1:1/mode/stream" then "stream" else "classic"

/-- A well-behaved machine: the service echoes the requested mode. -/
def echoEnv : Env := envWith goodMetadata echoReply

/-- A machine whose service always reports classic mode. -/
def classicEnv : Env := envWith goodMetadata (fun _ => "classic")

/-- A machine whose service directory has no "sonar" entry. -/
def emptyDirectoryEnv : Env :=
  { echoEnv with server := fun _ _ => .response 200 (bodyWith { SubApps := [] } "classic") }

/-- A machine whose directory announces Sonar as enabled, ready and running
with the metadata `webServerAddress: null`. -/
def nullAddressEnv : Env := envWith [("webServerAddress", .null)] echoReply

/-- A machine whose service announces an address that ends in a line feed. -/
def lineFeedEnv : Env := envWith [("webServerAddress", .string "http://127.0.0.1:1\n")] echoReply

/-- The client `New` returns on `lineFeedEnv` with the streamer override. -/
def lineFeedClient : Sonar :=
  { ChannelNames := channelNames
    StreamerSliderNames := streamerSliderNames
    VolumePath := streamerVolumePath
    AppDataPath := "coreProps.json"
    BaseURL := "https://127.0.0.1:6327"
    WebServerAddress := "http://127.0.0.1:1\n"
    StreamerMode := true }

/-- The client `New` returns on `echoEnv` for the given mode. -/
def clientIn (streamer : Bool) : Sonar :=
  { ChannelNames := channelNames
    StreamerSliderNames := streamerSliderNames
    VolumePath := if streamer then streamerVolumePath else classicVolumePath
    AppDataPath := "coreProps.json"
    BaseURL := "https://127.0.0.1:6327"
    WebServerAddress := "http://127.0.0.1:1"
    StreamerMode := streamer }

/-- The request `New` makes for the directory on the machines above. -/
def directoryRequest : Request := ⟨"GET", "https://127.0.0.1:6327/subApps"⟩

/-! ## Lemmas -/

theorem contains_eq_true_iff (l : List String) (x : String) :
    contains l x = true ↔ x ∈ l := by
  induction l with
  | nil => simp [contains]
  | cons a l ih =>
    by_cases h : a = x
    · simp [contains, h]
    · have h2 : ¬ x = a := fun e => h e.symm
      simp [contains, h, h2, ih]

theorem contains_eq_false_iff (l : List String) (x : String) :
    contains l x = false ↔ x ∉ l := by
  rw [← contains_eq_true_iff]
  cases contains l x <;> simp

/-- Unless `http.NewRequest` refuses the URL, the log after `putAndDecode` is
the old log followed by the one PUT. -/
theorem putAndDecode_log (env : Env) (log : List Request) (url : String)
    (hnew : ∀ msg, env.server log ⟨"PUT", url⟩ ≠ .invalid msg) :
    (putAndDecode env log url).2 = log ++ [⟨"PUT", url⟩] := by
  cases h : env.server log ⟨"PUT", url⟩ with
  | invalid msg => exact absurd h (hnew msg)
  | failure msg => simp [putAndDecode, send, h]
  | response status body =>
    by_cases hs : status = 200
    · cases hd : body.asMap <;> simp [putAndDecode, send, h, hs, hd]
    · simp [putAndDecode, send, h, hs]

/-- When `http.NewRequest` refuses the URL, `putAndDecode` returns its error
and the log is unchanged. -/
theorem putAndDecode_invalid (env : Env) (log : List Request) (url : String) (msg : String)
    (h : env.server log ⟨"PUT", url⟩ = .invalid msg) :
    putAndDecode env log url = (.error (.other msg), log) := by
  simp [putAndDecode, send, h]

/-- On a 200 response with a decodable body `putAndDecode` returns the body. -/
theorem putAndDecode_ok (env : Env) (log : List Request) (url : String) (body : Body)
    (result : JsonMap) (hresp : env.server log ⟨"PUT", url⟩ = .response 200 body)
    (hdec : body.asMap = .ok result) :
    putAndDecode env log url = (.ok result, log ++ [⟨"PUT", url⟩]) := by
  simp [putAndDecode, send, hresp, hdec]

/-- The only errors of `putAndDecode` are those of the HTTP exchange. -/
theorem putAndDecode_error (env : Env) (log : List Request) (url : String) (e : SonarError)
    (h : (putAndDecode env log url).1 = .error e) :
    (∃ msg, e = .other msg) ∨ (∃ status, e = .ServerNotAccessibleError status) := by
  cases hr : env.server log ⟨"PUT", url⟩ with
  | invalid msg =>
    simp [putAndDecode, send, hr] at h
    exact Or.inl ⟨_, h.symm⟩
  | failure msg =>
    simp [putAndDecode, send, hr] at h
    exact Or.inl ⟨_, h.symm⟩
  | response status body =>
    by_cases hs : status = 200
    · cases hd : body.asMap with
      | error msg =>
        simp [putAndDecode, send, hr, hs, hd] at h
        exact Or.inl ⟨_, h.symm⟩
      | ok result => simp [putAndDecode, send, hr, hs, hd] at h
    · simp [putAndDecode, send, hr, hs] at h
      exact Or.inr ⟨_, h.symm⟩

/-- The client `SetStreamerMode` leaves behind: the old one, or the old one
with mode and volume path set from one and the same flag. -/
theorem SetStreamerMode_state (env : Env) (s : Sonar) (log : List Request) (b : Bool) :
    (SetStreamerMode env s log b).2.1 = s ∨
      ∃ flag : Bool, (SetStreamerMode env s log b).2.1 =
        { s with StreamerMode := flag,
                 VolumePath := if flag then streamerVolumePath else classicVolumePath } := by
  cases hr : env.server log
      ⟨"PUT", s.WebServerAddress ++ "/mode/" ++ (if b then "stream" else "classic")⟩ with
  | invalid msg => left; simp [SetStreamerMode, send, hr]
  | failure msg => left; simp [SetStreamerMode, send, hr]
  | response status body =>
    by_cases hs : status = 200
    · cases hd : body.asString with
      | error msg => left; simp [SetStreamerMode, send, hr, hs, hd]
      | ok resultMode =>
        right
        refine ⟨resultMode == "stream", ?_⟩
        cases hm : (resultMode == "stream") <;> simp [SetStreamerMode, send, hr, hs, hd, hm]
    · left; simp [SetStreamerMode, send, hr, hs]

theorem loadBaseURL_state (env : Env) (s : Sonar) :
    (loadBaseURL env s).2 = s ∨ ∃ url, (loadBaseURL env s).2 = { s with BaseURL := url } := by
  unfold loadBaseURL
  split
  · left; rfl
  · left; rfl
  · left; rfl
  · right; exact ⟨_, rfl⟩

theorem extractWebServerAddress_state (s : Sonar) (metadata : JsonMap) :
    (extractWebServerAddress s metadata).2 = s ∨
      ∃ addr, (extractWebServerAddress s metadata).2 = { s with WebServerAddress := addr } := by
  unfold extractWebServerAddress
  split
  · left; rfl
  · right
    dsimp only
    split
    · exact ⟨_, rfl⟩
    · exact ⟨_, rfl⟩
  · left; rfl

theorem checkSubApps_state (s : Sonar) (d : SubApps) :
    (checkSubApps s d).2 = s ∨
      ∃ addr, (checkSubApps s d).2 = { s with WebServerAddress := addr } := by
  unfold checkSubApps
  split
  · left; rfl
  · split
    · left; rfl
    · split
      · left; rfl
      · split
        · left; rfl
        · exact extractWebServerAddress_state s _

theorem loadServerAddress_state (env : Env) (s : Sonar) (log : List Request) :
    (loadServerAddress env s log).2.1 = s ∨
      ∃ addr, (loadServerAddress env s log).2.1 = { s with WebServerAddress := addr } := by
  cases hr : env.server log ⟨"GET", s.BaseURL ++ "/subApps"⟩ with
  | invalid msg => left; simp [loadServerAddress, send, hr]
  | failure msg => left; simp [loadServerAddress, send, hr]
  | response status body =>
    by_cases hs : status = 200
    · cases hd : body.asSubApps with
      | error msg => left; simp [loadServerAddress, send, hr, hs, hd]
      | ok subApps =>
        have e : (loadServerAddress env s log).2.1 = (checkSubApps s subApps).2 := by
          simp [loadServerAddress, send, hr, hs, hd]
        rw [e]
        exact checkSubApps_state s subApps
    · left; simp [loadServerAddress, send, hr, hs]

/-- Only `SetStreamerMode` touches the mode and the volume path. -/
theorem step_other_fields (env : Env) (st : Sonar × List Request) (op : Op)
    (hop : ∀ b, op ≠ .SetStreamerMode b) :
    (step env st op).1.ChannelNames = st.1.ChannelNames ∧
    (step env st op).1.StreamerSliderNames = st.1.StreamerSliderNames ∧
    (step env st op).1.VolumePath = st.1.VolumePath ∧
    (step env st op).1.StreamerMode = st.1.StreamerMode := by
  cases op with
  | SetStreamerMode b => exact absurd rfl (hop b)
  | loadBaseURL =>
    rcases loadBaseURL_state env st.1 with h | ⟨url, h⟩ <;> simp [step, h]
  | loadServerAddress =>
    rcases loadServerAddress_state env st.1 st.2 with h | ⟨addr, h⟩ <;> simp [step, h]
  | _ => simp [step]

theorem step_inv (env : Env) (st : Sonar × List Request) (op : Op) (h : Inv st.1) :
    Inv (step env st op).1 := by
  by_cases hop : ∀ b, op ≠ .SetStreamerMode b
  · obtain ⟨h1, h2, h3, h4⟩ := step_other_fields env st op hop
    unfold Inv
    rw [h1, h2, h3, h4]
    exact h
  · push_neg at hop
    obtain ⟨b, rfl⟩ := hop
    obtain ⟨hc, hs, hv⟩ := h
    rcases SetStreamerMode_state env st.1 st.2 b with h | ⟨flag, h⟩
    · simp only [step, h]; exact ⟨hc, hs, hv⟩
    · simp only [step, h]; exact ⟨hc, hs, rfl⟩

theorem newSonar_fields (env : Env) (appDataPath : Option String) :
    (newSonar env appDataPath).ChannelNames = channelNames ∧
    (newSonar env appDataPath).StreamerSliderNames = streamerSliderNames ∧
    (newSonar env appDataPath).VolumePath = classicVolumePath := by
  cases appDataPath <;> simp [newSonar]

theorem finishNew_inv (s : Sonar) (b : Bool) (hc : s.ChannelNames = channelNames)
    (hs : s.StreamerSliderNames = streamerSliderNames) (hv : s.VolumePath = classicVolumePath) :
    Inv (finishNew { s with StreamerMode := b }) := by
  cases b <;> simp [finishNew, Inv, hc, hs, hv]

theorem New_inv (env : Env) (log : List Request) (appDataPath : Option String)
    (streamerMode : Option Bool) (s : Sonar) (log1 : List Request)
    (h : New env log appDataPath streamerMode = (.ok s, log1)) : Inv s := by
  obtain ⟨n1, n2, n3⟩ := newSonar_fields env appDataPath
  unfold New at h
  dsimp only at h
  split at h
  · cases h
  · cases h
  · rename_i u s2 hb
    have hs2 : s2 = (loadBaseURL env (newSonar env appDataPath)).2 := by rw [hb]
    have f2 : s2.ChannelNames = channelNames ∧ s2.StreamerSliderNames = streamerSliderNames ∧
        s2.VolumePath = classicVolumePath := by
      rcases loadBaseURL_state env (newSonar env appDataPath) with e | ⟨url, e⟩
      · rw [hs2, e]; exact ⟨n1, n2, n3⟩
      · rw [hs2, e]; exact ⟨n1, n2, n3⟩
    split at h
    · cases h
    · cases h
    · rename_i u2 s3 log3 hl
      have hs3 : s3 = (loadServerAddress env s2 log).2.1 := by rw [hl]
      have f3 : s3.ChannelNames = channelNames ∧ s3.StreamerSliderNames = streamerSliderNames ∧
          s3.VolumePath = classicVolumePath := by
        rcases loadServerAddress_state env s2 log with e | ⟨addr, e⟩
        · rw [hs3, e]; exact f2
        · rw [hs3, e]; exact f2
      split at h
      · split at h
        · cases h
        · cases h
        · injection h with h _
          injection h with h
          rw [← h]
          exact finishNew_inv s3 _ f3.1 f3.2.1 f3.2.2
      · injection h with h _
        injection h with h
        rw [← h]
        exact finishNew_inv s3 _ f3.1 f3.2.1 f3.2.2

/-- Every state of a client built by `New` satisfies `Inv`. -/
theorem reachable_inv (env : Env) (st : Sonar × List Request) (h : Reachable env st) :
    Inv st.1 := by
  induction h with
  | init log a m s log1 h => exact New_inv env log a m s log1 h
  | call st op _ ih => exact step_inv env st op ih

/-- What `SetVolume` does once the channel and slider checks have passed. -/
theorem SetVolume_checked (env : Env) (s : Sonar) (log : List Request) (channel : String)
    (volume : Float64) (streamerSlider : List String)
    (hc : contains s.ChannelNames channel = true)
    (hs : s.StreamerMode = true →
      contains s.StreamerSliderNames (resolveSlider streamerSlider) = true) :
    SetVolume env s log channel volume streamerSlider =
      if Float64.lt volume Float64.zero || Float64.gt volume Float64.one then
        (.error (.InvalidVolumeError volume), log)
      else putAndDecode env log
        (volumeURL env s channel volume (resolveSlider streamerSlider)) := by
  cases hm : s.StreamerMode with
  | false => simp [SetVolume, hc, hm]
  | true => simp [SetVolume, hc, hm, hs hm]

/-- What `MuteChannel` does once the channel and slider checks have passed. -/
theorem MuteChannel_checked (env : Env) (s : Sonar) (log : List Request) (channel : String)
    (muted : Bool) (streamerSlider : List String)
    (hc : contains s.ChannelNames channel = true)
    (hs : s.StreamerMode = true →
      contains s.StreamerSliderNames (resolveSlider streamerSlider) = true) :
    MuteChannel env s log channel muted streamerSlider =
      putAndDecode env log (muteURL s channel muted (resolveSlider streamerSlider)) := by
  cases hm : s.StreamerMode with
  | false => simp [MuteChannel, hc, hm]
  | true => simp [MuteChannel, hc, hm, hs hm]

/-! ## Channel and slider checks -/

/-- C3: on every client built by `New` (in any state it can reach, hence in
either mode), for every channel name outside the six fixed names and every
volume, mute value and slider argument, `SetVolume` and `MuteChannel` both
return `ChannelNotFoundError` carrying that name and leave the request log
unchanged: the channel check comes before the slider and volume checks and no
HTTP request is made. -/
theorem unknown_channel_rejected (env : Env) (s : Sonar) (log : List Request)
    (hreach : Reachable env (s, log)) (channel : String)
    (hch : channel ∉ ["master", "game", "chatRender", "media", "aux", "chatCapture"])
    (volume : Float64) (muted : Bool) (streamerSlider : List String) :
    SetVolume env s log channel volume streamerSlider =
        (.error (.ChannelNotFoundError channel), log) ∧
    MuteChannel env s log channel muted streamerSlider =
        (.error (.ChannelNotFoundError channel), log) := by
  have hinv := reachable_inv env (s, log) hreach
  have hc : contains s.ChannelNames channel = false := by
    rw [contains_eq_false_iff, hinv.1]
    exact hch
  constructor
  · simp [SetVolume, hc]
  · simp [MuteChannel, hc]

/-- C3 at a concrete input: the streamer-mode client built on `echoEnv`, asked
for the channel "voice" with an unknown slider and an out-of-range volume. -/
theorem unknown_channel_rejected_witness :
    SetVolume echoEnv (clientIn true) [directoryRequest] "voice" (.finite 2) ["nope"] =
        (.error (.ChannelNotFoundError "voice"), [directoryRequest]) ∧
    MuteChannel echoEnv (clientIn true) [directoryRequest] "voice" true ["nope"] =
        (.error (.ChannelNotFoundError "voice"), [directoryRequest]) :=
  unknown_channel_rejected echoEnv (clientIn true) [directoryRequest]
    (Reachable.init [] (some "coreProps.json") (some true) _ _ rfl)
    "voice" (by decide) (.finite 2) true ["nope"]

/-- C4: take a client built by `New` and one of the six channel names. In
streamer mode, a first slider argument outside streaming/monitoring makes
`SetVolume` and `MuteChannel` return `SliderNotFoundError` carrying it (no
request is made), while streaming, monitoring and an omitted slider never
produce a `SliderNotFoundError`. In classic mode any two slider arguments give
the same result and the same requests. -/
theorem slider_check (env : Env) (s : Sonar) (log : List Request)
    (hreach : Reachable env (s, log)) (channel : String)
    (hch : channel ∈ ["master", "game", "chatRender", "media", "aux", "chatCapture"])
    (volume : Float64) (muted : Bool) :
    (s.StreamerMode = true →
      (∀ slider rest, slider ∉ ["streaming", "monitoring"] →
        SetVolume env s log channel volume (slider :: rest) =
            (.error (.SliderNotFoundError slider), log) ∧
        MuteChannel env s log channel muted (slider :: rest) =
            (.error (.SliderNotFoundError slider), log)) ∧
      (∀ streamerSlider,
        streamerSlider = [] ∨ streamerSlider.head? = some "streaming" ∨
          streamerSlider.head? = some "monitoring" →
        ∀ x, (SetVolume env s log channel volume streamerSlider).1 ≠
              .error (.SliderNotFoundError x) ∧
            (MuteChannel env s log channel muted streamerSlider).1 ≠
              .error (.SliderNotFoundError x))) ∧
    (s.StreamerMode = false →
      ∀ slider1 slider2 : List String,
        SetVolume env s log channel volume slider1 =
            SetVolume env s log channel volume slider2 ∧
        MuteChannel env s log channel muted slider1 =
            MuteChannel env s log channel muted slider2) := by
  have hinv := reachable_inv env (s, log) hreach
  have hc : contains s.ChannelNames channel = true := by
    rw [contains_eq_true_iff, hinv.1]
    exact hch
  refine ⟨fun hmode => ⟨?_, ?_⟩, fun hmode => ?_⟩
  · intro slider rest hsl
    have hs : contains s.StreamerSliderNames slider = false := by
      rw [contains_eq_false_iff, hinv.2.1]
      exact hsl
    constructor
    · simp [SetVolume, hc, hmode, resolveSlider, hs]
    · simp [MuteChannel, hc, hmode, resolveSlider, hs]
  · intro streamerSlider hsl x
    have hs : contains s.StreamerSliderNames (resolveSlider streamerSlider) = true := by
      rw [contains_eq_true_iff, hinv.2.1]
      rcases hsl with h | h | h
      · subst h; simp [resolveSlider, streamerSliderNames]
      · cases streamerSlider with
        | nil => simp at h
        | cons a l =>
          simp only [List.head?_cons, Option.some.injEq] at h
          simp [resolveSlider, streamerSliderNames, h]
      · cases streamerSlider with
        | nil => simp at h
        | cons a l =>
          simp only [List.head?_cons, Option.some.injEq] at h
          simp [resolveSlider, streamerSliderNames, h]
    constructor
    · intro hres
      rw [SetVolume_checked env s log channel volume streamerSlider hc (fun _ => hs)] at hres
      split at hres
      · simp at hres
      · rcases putAndDecode_error _ _ _ _ hres with ⟨msg, e⟩ | ⟨st, e⟩ <;> cases e
    · intro hres
      rw [MuteChannel_checked env s log channel muted streamerSlider hc (fun _ => hs)] at hres
      rcases putAndDecode_error _ _ _ _ hres with ⟨msg, e⟩ | ⟨st, e⟩ <;> cases e
  · intro slider1 slider2
    constructor
    · simp [SetVolume, hmode, volumeURL]
    · simp [MuteChannel, hmode, muteURL]

/-- C4 at concrete inputs: the streamer-mode client built on `echoEnv` rejects
the slider "front", and the classic-mode client built there gives the same
result with and without a slider argument. -/
theorem slider_check_witness :
    (SetVolume echoEnv (clientIn true) [directoryRequest] "master" (.finite 1) ["front"] =
        (.error (.SliderNotFoundError "front"), [directoryRequest]) ∧
      MuteChannel echoEnv (clientIn true) [directoryRequest] "master" true ["front"] =
        (.error (.SliderNotFoundError "front"), [directoryRequest])) ∧
    (SetVolume echoEnv (clientIn false) [directoryRequest] "master" (.finite 1) ["front"] =
        SetVolume echoEnv (clientIn false) [directoryRequest] "master" (.finite 1) [] ∧
      MuteChannel echoEnv (clientIn false) [directoryRequest] "master" true ["front"] =
        MuteChannel echoEnv (clientIn false) [directoryRequest] "master" true []) :=
  ⟨((slider_check echoEnv (clientIn true) [directoryRequest]
      (Reachable.init [] (some "coreProps.json") (some true) _ _ rfl)
      "master" (by decide) (.finite 1) true).1 rfl).1 "front" [] (by decide),
   (slider_check echoEnv (clientIn false) [directoryRequest]
      (Reachable.init [] (some "coreProps.json") (some false) _ _ rfl)
      "master" (by decide) (.finite 1) true).2 rfl ["front"] []⟩

/-! ## The request of `MuteChannel` -/

theorem muteURL_classic (s : Sonar) (channel : String) (muted : Bool) (slider : String)
    (hm : s.StreamerMode = false) :
    muteURL s channel muted slider =
      s.WebServerAddress ++ s.VolumePath ++ "/" ++ channel ++ "/Mute/" ++
        (if muted then "true" else "false") := by
  have e : ("/Mute/" : String) = "/" ++ "Mute" ++ "/" := by decide
  simp only [muteURL, hm, marshalled, jsonMarshalBool, e, String.append_assoc, if_true,
    if_false, Bool.false_eq_true]

theorem muteURL_streamer (s : Sonar) (channel : String) (muted : Bool) (slider : String)
    (hm : s.StreamerMode = true) :
    muteURL s channel muted slider =
      s.WebServerAddress ++ s.VolumePath ++ "/" ++ slider ++ "/" ++ channel ++ "/isMuted/" ++
        (if muted then "true" else "false") := by
  have e : ("/isMuted/" : String) = "/" ++ "isMuted" ++ "/" := by decide
  simp only [muteURL, hm, marshalled, jsonMarshalBool, e, String.append_assoc, if_true,
    if_false, Bool.false_eq_true]

/-- C10, as the code has it: on a client built by `New`, for every one of the
six channel names, every boolean and (in streamer mode) a slider argument that
resolves to streaming or monitoring, `MuteChannel` builds the URL
`WebServerAddress ++ VolumePath ++ "/" ++ channel ++ "/Mute/" ++ json` in
classic mode, where the slider does not occur, and `WebServerAddress ++
VolumePath ++ "/" ++ slider ++ "/" ++ channel ++ "/isMuted/" ++ json` in
streamer mode, with `json` the text true or false. When `http.NewRequest`
accepts that URL, the call adds exactly one request to the log, a PUT with that
URL; in streamer mode `MuteChannel("game", true, "monitoring")` then requests
`WebServerAddress ++ "/volumeSettings/streamer/monitoring/game/isMuted/true"`.
When `http.NewRequest` refuses the URL, the call returns that error and issues
no request. -/
theorem MuteChannel_request (env : Env) (s : Sonar) (log : List Request)
    (hreach : Reachable env (s, log)) (channel : String)
    (hch : channel ∈ ["master", "game", "chatRender", "media", "aux", "chatCapture"])
    (muted : Bool) (streamerSlider : List String)
    (hsl : s.StreamerMode = true →
      resolveSlider streamerSlider ∈ ["streaming", "monitoring"]) :
    (s.StreamerMode = false →
      (∀ msg, env.server log
        ⟨"PUT", s.WebServerAddress ++ s.VolumePath ++ "/" ++ channel ++ "/Mute/" ++
          (if muted then "true" else "false")⟩ ≠ .invalid msg) →
      (MuteChannel env s log channel muted streamerSlider).2 =
        log ++ [⟨"PUT", s.WebServerAddress ++ s.VolumePath ++ "/" ++ channel ++ "/Mute/" ++
          (if muted then "true" else "false")⟩]) ∧
    (s.StreamerMode = true →
      (∀ msg, env.server log
        ⟨"PUT", s.WebServerAddress ++ s.VolumePath ++ "/" ++
          resolveSlider streamerSlider ++ "/" ++ channel ++ "/isMuted/" ++
          (if muted then "true" else "false")⟩ ≠ .invalid msg) →
      (MuteChannel env s log channel muted streamerSlider).2 =
        log ++ [⟨"PUT", s.WebServerAddress ++ s.VolumePath ++ "/" ++
          resolveSlider streamerSlider ++ "/" ++ channel ++ "/isMuted/" ++
          (if muted then "true" else "false")⟩]) ∧
    (s.StreamerMode = true →
      (∀ msg, env.server log
        ⟨"PUT", s.WebServerAddress ++
          "/volumeSettings/streamer/monitoring/game/isMuted/true"⟩ ≠ .invalid msg) →
      (MuteChannel env s log "game" true ["monitoring"]).2 =
        log ++ [⟨"PUT", s.WebServerAddress ++
          "/volumeSettings/streamer/monitoring/game/isMuted/true"⟩]) ∧
    (∀ msg,
      env.server log
        ⟨"PUT", if s.StreamerMode then
            s.WebServerAddress ++ s.VolumePath ++ "/" ++ resolveSlider streamerSlider ++
              "/" ++ channel ++ "/isMuted/" ++ (if muted then "true" else "false")
          else
            s.WebServerAddress ++ s.VolumePath ++ "/" ++ channel ++ "/Mute/" ++
              (if muted then "true" else "false")⟩ = .invalid msg →
      MuteChannel env s log channel muted streamerSlider = (.error (.other msg), log)) := by
  have hinv := reachable_inv env (s, log) hreach
  have hc : contains s.ChannelNames channel = true := by
    rw [contains_eq_true_iff, hinv.1]
    exact hch
  have hs : s.StreamerMode = true →
      contains s.StreamerSliderNames (resolveSlider streamerSlider) = true := by
    intro hm
    rw [contains_eq_true_iff, hinv.2.1]
    exact hsl hm
  rw [MuteChannel_checked env s log channel muted streamerSlider hc hs]
  refine ⟨fun hm hnew => ?_, fun hm hnew => ?_, fun hm hnew => ?_, fun msg hinvalid => ?_⟩
  · rw [muteURL_classic s channel muted _ hm]
    exact putAndDecode_log env log _ hnew
  · rw [muteURL_streamer s channel muted _ hm]
    exact putAndDecode_log env log _ hnew
  · have hg : contains s.ChannelNames "game" = true := by
      rw [contains_eq_true_iff, hinv.1]; decide
    have hmon : s.StreamerMode = true →
        contains s.StreamerSliderNames (resolveSlider ["monitoring"]) = true := by
      intro _
      rw [contains_eq_true_iff, hinv.2.1]; decide
    have hv : s.VolumePath = streamerVolumePath := by
      have := hinv.2.2
      simpa [hm] using this
    have e : ("/volumeSettings/streamer/monitoring/game/isMuted/true" : String) =
        streamerVolumePath ++ "/" ++ "monitoring" ++ "/" ++ "game" ++ "/isMuted/" ++ "true" := by
      decide
    have eurl : muteURL s "game" true (resolveSlider ["monitoring"]) =
        s.WebServerAddress ++ "/volumeSettings/streamer/monitoring/game/isMuted/true" := by
      rw [muteURL_streamer s "game" true _ hm, hv, e]
      simp only [resolveSlider, String.append_assoc, if_true]
    rw [MuteChannel_checked env s log "game" true ["monitoring"] hg hmon, eurl]
    exact putAndDecode_log env log _ hnew
  · cases hm : s.StreamerMode with
    | false =>
      rw [hm] at hinvalid
      rw [muteURL_classic s channel muted _ hm]
      exact putAndDecode_invalid env log _ msg (by simpa using hinvalid)
    | true =>
      rw [hm] at hinvalid
      rw [muteURL_streamer s channel muted _ hm]
      exact putAndDecode_invalid env log _ msg (by simpa using hinvalid)

/-- C10 at a concrete input: the streamer-mode client built on `echoEnv` mutes
"game" on the monitoring slider with one PUT. -/
theorem MuteChannel_request_witness :
    (MuteChannel echoEnv (clientIn true) [directoryRequest] "game" true ["monitoring"]).2 =
      [directoryRequest] ++ [⟨"PUT", (clientIn true).WebServerAddress ++
        "/volumeSettings/streamer/monitoring/game/isMuted/true"⟩] :=
  (MuteChannel_request echoEnv (clientIn true) [directoryRequest]
    (Reachable.init [] (some "coreProps.json") (some true) _ _ rfl)
    "game" (by decide) true ["monitoring"] (fun _ => by decide)).2.2.1 rfl
    (fun _ h => HttpResult.noConfusion h)

/-- C10 as stated fails: a service that announces an address ending in a line
feed. `New` with the streamer override returns a client holding that address;
`http.NewRequest` refuses the URL `MuteChannel("game", true, "monitoring")`
builds from it, the call returns that error, and the log holds no PUT. -/
theorem MuteChannel_unparsable_address_no_request :
    New lineFeedEnv [] (some "coreProps.json") (some true) =
      (.ok lineFeedClient, [directoryRequest]) ∧
    MuteChannel lineFeedEnv lineFeedClient [directoryRequest] "game" true ["monitoring"] =
      (.error (.other "net/url: invalid control character in URL"), [directoryRequest]) ∧
    [directoryRequest] ≠
      [directoryRequest] ++ [⟨"PUT", lineFeedClient.WebServerAddress ++
        "/volumeSettings/streamer/monitoring/game/isMuted/true"⟩] :=
  ⟨rfl, rfl, by decide⟩

/-! ## The mode -/

/-- A call of `SetStreamerMode` that does not return a nil error leaves the
client as it was. -/
theorem SetStreamerMode_failed (env : Env) (s : Sonar) (log : List Request) (b : Bool)
    (h : (SetStreamerMode env s log b).1.isOk = false) :
    (SetStreamerMode env s log b).2.1 = s := by
  cases hr : env.server log
      ⟨"PUT", s.WebServerAddress ++ "/mode/" ++ (if b then "stream" else "classic")⟩ with
  | invalid msg => simp [SetStreamerMode, send, hr]
  | failure msg => simp [SetStreamerMode, send, hr]
  | response status body =>
    by_cases hs : status = 200
    · cases hd : body.asString with
      | error msg => simp [SetStreamerMode, send, hr, hs, hd]
      | ok resultMode => simp [SetStreamerMode, send, hr, hs, hd, Outcome.isOk] at h
    · simp [SetStreamerMode, send, hr, hs]

/-- C6: whatever mode is requested, when the server answers the PUT with status
200 and a body that decodes to the string `r`, `SetStreamerMode` returns the
flag `r == "stream"` with a nil error, stores that flag in `StreamerMode`, and
sets `VolumePath` to the streamer variant when `r` is "stream" and to the
classic variant otherwise; nothing else in the client changes. The requested
mode occurs only in the URL of the one request, `/mode/stream` or
`/mode/classic`. -/
theorem SetStreamerMode_follows_echo (env : Env) (s : Sonar) (log : List Request)
    (requested : Bool) (body : Body) (r : String)
    (hresp : env.server log
        ⟨"PUT", s.WebServerAddress ++ "/mode/" ++ (if requested then "stream" else "classic")⟩ =
      .response 200 body)
    (hdec : body.asString = .ok r) :
    SetStreamerMode env s log requested =
      (.ok (r == "stream"),
       { s with StreamerMode := (r == "stream"),
                VolumePath := if r == "stream" then "/volumeSettings/streamer"
                              else "/volumeSettings/classic" },
       log ++ [⟨"PUT", s.WebServerAddress ++ "/mode/" ++
                (if requested then "stream" else "classic")⟩]) := by
  cases hm : (r == "stream") <;>
    simp [SetStreamerMode, send, hresp, hdec, hm, streamerVolumePath, classicVolumePath]

/-- C6 at a concrete input: streamer mode is requested from a service that
answers "classic"; the client ends in classic mode and false is returned. -/
theorem SetStreamerMode_follows_echo_witness :
    SetStreamerMode classicEnv (clientIn false) [] true =
      (.ok false, clientIn false, [⟨"PUT", "http://127.0.0.1:1/mode/stream"⟩]) :=
  SetStreamerMode_follows_echo classicEnv (clientIn false) [] true
    (bodyWith (directoryWith goodMetadata) "classic") "classic" rfl rfl

/-- C7: in every state of a client built by `New` (with or without a mode
override, after any sequence of method calls, whatever they returned)
`VolumePath` is "/volumeSettings/streamer" when `StreamerMode` is true and
"/volumeSettings/classic" when it is false. From such a state a call of
`SetStreamerMode` that fails changes neither field, and no call of another
method changes either. -/
theorem volumePath_follows_mode (env : Env) (st : Sonar × List Request)
    (hreach : Reachable env st) :
    st.1.VolumePath =
        (if st.1.StreamerMode then "/volumeSettings/streamer" else "/volumeSettings/classic") ∧
    (∀ b, (SetStreamerMode env st.1 st.2 b).1.isOk = false →
      (SetStreamerMode env st.1 st.2 b).2.1.VolumePath = st.1.VolumePath ∧
      (SetStreamerMode env st.1 st.2 b).2.1.StreamerMode = st.1.StreamerMode) ∧
    (∀ op, (∀ b, op ≠ .SetStreamerMode b) →
      (step env st op).1.VolumePath = st.1.VolumePath ∧
      (step env st op).1.StreamerMode = st.1.StreamerMode) := by
  refine ⟨(reachable_inv env st hreach).2.2, ?_, ?_⟩
  · intro b h
    rw [SetStreamerMode_failed env st.1 st.2 b h]
    exact ⟨rfl, rfl⟩
  · intro op hop
    obtain ⟨_, _, h3, h4⟩ := step_other_fields env st op hop
    exact ⟨h3, h4⟩

/-- C7 at a concrete input: the client built on `echoEnv` without an override,
after a volume call and a switch to streamer mode. -/
theorem volumePath_follows_mode_witness :
    (step echoEnv (step echoEnv (clientIn false,
        [directoryRequest, ⟨"GET", "http://127.0.0.1:1/mode/"⟩])
      (.SetVolume "master" (.finite 1) [])) (.SetStreamerMode true)).1.VolumePath =
    (if (step echoEnv (step echoEnv (clientIn false,
        [directoryRequest, ⟨"GET", "http://127.0.0.1:1/mode/"⟩])
      (.SetVolume "master" (.finite 1) [])) (.SetStreamerMode true)).1.StreamerMode
     then "/volumeSettings/streamer" else "/volumeSettings/classic") :=
  (volumePath_follows_mode echoEnv _
    (Reachable.call _ (.SetStreamerMode true)
      (Reachable.call _ (.SetVolume "master" (.finite 1) [])
        (Reachable.init [] (some "coreProps.json") none (clientIn false)
          [directoryRequest, ⟨"GET", "http://127.0.0.1:1/mode/"⟩] rfl)))).1

/-! ## Discovery -/

/-- On a 200 response whose body decodes to `d`, `loadServerAddress` is
`checkSubApps` on `d`. -/
theorem loadServerAddress_decoded (env : Env) (s : Sonar) (log : List Request) (body : Body)
    (d : SubApps)
    (hresp : env.server log ⟨"GET", s.BaseURL ++ "/subApps"⟩ = .response 200 body)
    (hdec : body.asSubApps = .ok d) :
    loadServerAddress env s log =
      ((checkSubApps s d).1, (checkSubApps s d).2,
        log ++ [⟨"GET", s.BaseURL ++ "/subApps"⟩]) := by
  simp [loadServerAddress, send, hresp, hdec]

/-- When `loadBaseURL` has succeeded, an error of `loadServerAddress` is the
error of `New`; when it has not, `New` fails as well. -/
theorem New_error_of_loadServerAddress (env : Env) (log : List Request)
    (appDataPath : Option String) (streamerMode : Option Bool) (e : SonarError)
    (h : (loadServerAddress env (loadBaseURL env (newSonar env appDataPath)).2 log).1 =
      .error e) :
    ∃ e1, (New env log appDataPath streamerMode).1 = .error e1 := by
  unfold New
  dsimp only
  split
  · exact ⟨_, rfl⟩
  · rename_i hb
    unfold loadBaseURL at hb
    split at hb <;> cases hb
  · rename_i u s2 hb
    have hs2 : (loadBaseURL env (newSonar env appDataPath)).2 = s2 := by rw [hb]
    rw [hs2] at h
    split
    · exact ⟨_, rfl⟩
    · rename_i hl
      rw [hl] at h
      cases h
    · rename_i hl
      rw [hl] at h
      cases h

/-- C8: let the directory request of `loadServerAddress` be answered with
status 200 and a body that decodes to the directory `d`. If `d` has no "sonar"
entry, or the entry has `isEnabled` false, the result is
`SonarNotEnabledError`; if it is enabled but not ready, `ServerNotReadyError`;
if it is enabled and ready but not running, `ServerNotRunningError`; in these
cases the client is left unchanged. Only when all three flags are true is the
result that of the endpoint extraction on the entry's metadata. `New` returns
an error and no client whenever the entry is missing or one flag is false. -/
theorem loadServerAddress_gates (env : Env) (s : Sonar) (log : List Request) (body : Body)
    (d : SubApps)
    (hresp : env.server log ⟨"GET", s.BaseURL ++ "/subApps"⟩ = .response 200 body)
    (hdec : body.asSubApps = .ok d) :
    (d.SubApps.lookup "sonar" = none →
      loadServerAddress env s log =
        (.error .SonarNotEnabledError, s, log ++ [⟨"GET", s.BaseURL ++ "/subApps"⟩])) ∧
    (∀ app, d.SubApps.lookup "sonar" = some app →
      (app.IsEnabled = false →
        loadServerAddress env s log =
          (.error .SonarNotEnabledError, s, log ++ [⟨"GET", s.BaseURL ++ "/subApps"⟩])) ∧
      (app.IsEnabled = true → app.IsReady = false →
        loadServerAddress env s log =
          (.error .ServerNotReadyError, s, log ++ [⟨"GET", s.BaseURL ++ "/subApps"⟩])) ∧
      (app.IsEnabled = true → app.IsReady = true → app.IsRunning = false →
        loadServerAddress env s log =
          (.error .ServerNotRunningError, s, log ++ [⟨"GET", s.BaseURL ++ "/subApps"⟩])) ∧
      (app.IsEnabled = true → app.IsReady = true → app.IsRunning = true →
        loadServerAddress env s log =
          ((extractWebServerAddress s app.Metadata).1, (extractWebServerAddress s app.Metadata).2,
            log ++ [⟨"GET", s.BaseURL ++ "/subApps"⟩]))) ∧
    (∀ appDataPath streamerMode,
      s = (loadBaseURL env (newSonar env appDataPath)).2 →
      (¬ ∃ app, d.SubApps.lookup "sonar" = some app ∧ app.IsEnabled = true ∧
          app.IsReady = true ∧ app.IsRunning = true) →
      ∃ e, (New env log appDataPath streamerMode).1 = .error e) := by
  have hl := loadServerAddress_decoded env s log body d hresp hdec
  refine ⟨?_, ?_, ?_⟩
  · intro hnone
    rw [hl]
    simp [checkSubApps, hnone]
  · intro app hsome
    rw [hl]
    refine ⟨?_, ?_, ?_, ?_⟩
    · intro h1
      simp [checkSubApps, hsome, h1]
    · intro h1 h2
      simp [checkSubApps, hsome, h1, h2]
    · intro h1 h2 h3
      simp [checkSubApps, hsome, h1, h2, h3]
    · intro h1 h2 h3
      simp [checkSubApps, hsome, h1, h2, h3]
  · intro appDataPath streamerMode hs hgate
    have herr : ∃ e, (loadServerAddress env s log).1 = .error e := by
      rw [hl]
      cases hlook : d.SubApps.lookup "sonar" with
      | none => exact ⟨.SonarNotEnabledError, by simp [checkSubApps, hlook]⟩
      | some app =>
        cases h1 : app.IsEnabled with
        | false => exact ⟨.SonarNotEnabledError, by simp [checkSubApps, hlook, h1]⟩
        | true =>
          cases h2 : app.IsReady with
          | false => exact ⟨.ServerNotReadyError, by simp [checkSubApps, hlook, h1, h2]⟩
          | true =>
            cases h3 : app.IsRunning with
            | false => exact ⟨.ServerNotRunningError, by simp [checkSubApps, hlook, h1, h2, h3]⟩
            | true => exact absurd ⟨app, hlook, h1, h2, h3⟩ hgate
    obtain ⟨e, he⟩ := herr
    rw [hs] at he
    exact New_error_of_loadServerAddress env log appDataPath streamerMode e he

/-- C8 at a concrete input: against a directory without a "sonar" entry
`loadServerAddress` fails with `SonarNotEnabledError`. -/
theorem loadServerAddress_gates_witness :
    loadServerAddress emptyDirectoryEnv (clientIn false) [] =
      (.error .SonarNotEnabledError, clientIn false, [] ++ [directoryRequest]) :=
  (loadServerAddress_gates emptyDirectoryEnv (clientIn false) []
    (bodyWith { SubApps := [] } "classic") { SubApps := [] } rfl rfl).1 rfl

/-! ## Switching the mode back and forth -/

/-- A call of `SetStreamerMode` that returns a flag has stored that flag and the
matching volume path. -/
theorem SetStreamerMode_ok (env : Env) (s : Sonar) (log : List Request) (b flag : Bool)
    (s1 : Sonar) (log1 : List Request)
    (h : SetStreamerMode env s log b = (.ok flag, s1, log1)) :
    s1 = { s with StreamerMode := flag,
                  VolumePath := if flag then streamerVolumePath else classicVolumePath } := by
  cases hr : env.server log
      ⟨"PUT", s.WebServerAddress ++ "/mode/" ++ (if b then "stream" else "classic")⟩ with
  | invalid msg => simp [SetStreamerMode, send, hr] at h
  | failure msg => simp [SetStreamerMode, send, hr] at h
  | response status body =>
    by_cases hs : status = 200
    · cases hd : body.asString with
      | error msg => simp [SetStreamerMode, send, hr, hs, hd] at h
      | ok resultMode =>
        cases hm : (resultMode == "stream") <;>
          simp [SetStreamerMode, send, hr, hs, hd, hm] at h <;>
          obtain ⟨h1, h2, _⟩ := h <;> subst h1 <;> subst h2 <;> rfl
    · simp [SetStreamerMode, send, hr, hs] at h

/-- C5, as the code has it: from a client whose `VolumePath` is the classic
variant, when `SetStreamerMode(true)` succeeds and returns true and then
`SetStreamerMode(false)` succeeds and returns false (the server confirms the
requested mode both times), `VolumePath` after the second call equals its value
before the first call, and between the two calls it is
"/volumeSettings/streamer". -/
theorem SetStreamerMode_round_trip (env : Env) (s : Sonar) (log : List Request)
    (s1 : Sonar) (log1 : List Request) (s2 : Sonar) (log2 : List Request)
    (hstart : s.VolumePath = "/volumeSettings/classic")
    (h1 : SetStreamerMode env s log true = (.ok true, s1, log1))
    (h2 : SetStreamerMode env s1 log1 false = (.ok false, s2, log2)) :
    s2.VolumePath = s.VolumePath ∧ s1.VolumePath = "/volumeSettings/streamer" := by
  have e1 := SetStreamerMode_ok env s log true true s1 log1 h1
  have e2 := SetStreamerMode_ok env s1 log1 false false s2 log2 h2
  subst e1
  subst e2
  simp [hstart, streamerVolumePath, classicVolumePath]

/-- C5 at a concrete input: the classic-mode client built on `echoEnv`, whose
service confirms each requested mode. -/
theorem SetStreamerMode_round_trip_witness :
    (clientIn false).VolumePath = "/volumeSettings/classic" ∧
    SetStreamerMode echoEnv (clientIn false) [directoryRequest] true =
      (.ok true, clientIn true,
        [directoryRequest, ⟨"PUT", "http://127.0.0.1:1/mode/stream"⟩]) ∧
    SetStreamerMode echoEnv (clientIn true)
        [directoryRequest, ⟨"PUT", "http://127.0.0.1:1/mode/stream"⟩] false =
      (.ok false, clientIn false,
        [directoryRequest, ⟨"PUT", "http://127.0.0.1:1/mode/stream"⟩,
          ⟨"PUT", "http://127.0.0.1:1/mode/classic"⟩]) ∧
    ((clientIn false).VolumePath = (clientIn false).VolumePath ∧
      (clientIn true).VolumePath = "/volumeSettings/streamer") :=
  ⟨rfl, rfl, rfl,
    SetStreamerMode_round_trip echoEnv (clientIn false) [directoryRequest]
      (clientIn true) [directoryRequest, ⟨"PUT", "http://127.0.0.1:1/mode/stream"⟩]
      (clientIn false)
      [directoryRequest, ⟨"PUT", "http://127.0.0.1:1/mode/stream"⟩,
        ⟨"PUT", "http://127.0.0.1:1/mode/classic"⟩]
      rfl rfl rfl⟩

/-- C5 as stated fails. First, the client that `New` builds on `echoEnv` with
the streamer override: both calls succeed against a server that confirms each
requested mode, and `VolumePath` ends as the classic variant although it was
the streamer variant before the first call. Second, the classic-mode client
against a server that always answers "classic": both calls succeed and
`VolumePath` between them is not the streamer variant. -/
theorem round_trip_fails_from_streamer_or_unconfirmed :
    (New echoEnv [] (some "coreProps.json") (some true) =
        (.ok (clientIn true), [directoryRequest]) ∧
      SetStreamerMode echoEnv (clientIn true) [directoryRequest] true =
        (.ok true, clientIn true,
          [directoryRequest, ⟨"PUT", "http://127.0.0.1:1/mode/stream"⟩]) ∧
      SetStreamerMode echoEnv (clientIn true)
          [directoryRequest, ⟨"PUT", "http://127.0.0.1:1/mode/stream"⟩] false =
        (.ok false, clientIn false,
          [directoryRequest, ⟨"PUT", "http://127.0.0.1:1/mode/stream"⟩,
            ⟨"PUT", "http://127.0.0.1:1/mode/classic"⟩]) ∧
      (clientIn false).VolumePath ≠ (clientIn true).VolumePath) ∧
    (New classicEnv [] (some "coreProps.json") none =
        (.ok (clientIn false), [directoryRequest, ⟨"GET", "http://127.0.0.1:1/mode/"⟩]) ∧
      SetStreamerMode classicEnv (clientIn false)
          [directoryRequest, ⟨"GET", "http://127.0.0.1:1/mode/"⟩] true =
        (.ok false, clientIn false,
          [directoryRequest, ⟨"GET", "http://127.0.0.1:1/mode/"⟩,
            ⟨"PUT", "http://127.0.0.1:1/mode/stream"⟩]) ∧
      SetStreamerMode classicEnv (clientIn false)
          [directoryRequest, ⟨"GET", "http://127.0.0.1:1/mode/"⟩,
            ⟨"PUT", "http://127.0.0.1:1/mode/stream"⟩] false =
        (.ok false, clientIn false,
          [directoryRequest, ⟨"GET", "http://127.0.0.1:1/mode/"⟩,
            ⟨"PUT", "http://127.0.0.1:1/mode/stream"⟩,
            ⟨"PUT", "http://127.0.0.1:1/mode/classic"⟩]) ∧
      (clientIn false).VolumePath ≠ "/volumeSettings/streamer") :=
  ⟨⟨rfl, rfl, rfl, by decide⟩, ⟨rfl, rfl, rfl, by decide⟩⟩

/-! ## Range checks -/

/-- The test `volume < 0 || volume > 1` of `SetVolume` is false exactly on NaN
and on the values in [0,1]. -/
theorem volume_test_false_iff (v : Float64) :
    (Float64.lt v Float64.zero || Float64.gt v Float64.one) = false ↔
      v = .nan ∨ Float64.inRange 0 1 v := by
  cases v with
  | nan => simp [Float64.lt, Float64.gt, Float64.one]
  | inf negative =>
    cases negative <;>
      simp [Float64.lt, Float64.gt, Float64.zero, Float64.one, Float64.inRange]
  | finite q =>
    simp [Float64.lt, Float64.gt, Float64.zero, Float64.one, Float64.inRange]

/-- The test `mixVolume < -1 || mixVolume > 1` of `SetChatMix` is false exactly
on NaN and on the values in [-1,1]. -/
theorem mix_test_false_iff (v : Float64) :
    (Float64.lt v Float64.negOne || Float64.gt v Float64.one) = false ↔
      v = .nan ∨ Float64.inRange (-1) 1 v := by
  cases v with
  | nan => simp [Float64.lt, Float64.gt, Float64.one]
  | inf negative =>
    cases negative <;>
      simp [Float64.lt, Float64.gt, Float64.negOne, Float64.one, Float64.inRange]
  | finite q =>
    simp [Float64.lt, Float64.gt, Float64.negOne, Float64.one, Float64.inRange]

/-- The range check of `SetVolume` on every volume other than NaN: with a
channel and slider that pass their checks and a service that answers 200 with a
decodable body, the call succeeds exactly when the volume lies in [0,1], and
otherwise returns `InvalidVolumeError` with that volume without a request. -/
theorem SetVolume_range_of_ne_nan (env : Env) (s : Sonar) (log : List Request)
    (hreach : Reachable env (s, log)) (channel : String)
    (hch : channel ∈ ["master", "game", "chatRender", "media", "aux", "chatCapture"])
    (volume : Float64) (streamerSlider : List String)
    (hsl : s.StreamerMode = true →
      resolveSlider streamerSlider ∈ ["streaming", "monitoring"])
    (hserver : ∀ url, ∃ body result,
      env.server log ⟨"PUT", url⟩ = .response 200 body ∧ body.asMap = .ok result)
    (hnan : volume ≠ .nan) :
    ((SetVolume env s log channel volume streamerSlider).1.isOk = true ↔
        Float64.inRange 0 1 volume) ∧
    (¬ Float64.inRange 0 1 volume →
      SetVolume env s log channel volume streamerSlider =
        (.error (.InvalidVolumeError volume), log)) := by
  have hinv := reachable_inv env (s, log) hreach
  have hc : contains s.ChannelNames channel = true := by
    rw [contains_eq_true_iff, hinv.1]
    exact hch
  have hs : s.StreamerMode = true →
      contains s.StreamerSliderNames (resolveSlider streamerSlider) = true := by
    intro hm
    rw [contains_eq_true_iff, hinv.2.1]
    exact hsl hm
  rw [SetVolume_checked env s log channel volume streamerSlider hc hs]
  by_cases hr : Float64.inRange 0 1 volume
  · have ht := (volume_test_false_iff volume).2 (Or.inr hr)
    obtain ⟨body, result, h1, h2⟩ :=
      hserver (volumeURL env s channel volume (resolveSlider streamerSlider))
    rw [ht]
    simp [putAndDecode_ok env log _ body result h1 h2, Outcome.isOk, hr]
  · have ht : (Float64.lt volume Float64.zero || Float64.gt volume Float64.one) = true := by
      cases h : (Float64.lt volume Float64.zero || Float64.gt volume Float64.one) with
      | true => rfl
      | false =>
        rcases (volume_test_false_iff volume).1 h with h | h
        · exact absurd h hnan
        · exact absurd h hr
    rw [ht]
    simp [Outcome.isOk, hr]

/-- The range check of `SetChatMix` on every balance other than NaN: against a
service that answers 200 with a decodable body, the call succeeds exactly when
the balance lies in [-1,1], and otherwise returns `InvalidMixVolumeError` with
that balance without a request. -/
theorem SetChatMix_range_of_ne_nan (env : Env) (s : Sonar) (log : List Request)
    (mixVolume : Float64)
    (hserver : ∀ url, ∃ body result,
      env.server log ⟨"PUT", url⟩ = .response 200 body ∧ body.asMap = .ok result)
    (hnan : mixVolume ≠ .nan) :
    ((SetChatMix env s log mixVolume).1.isOk = true ↔ Float64.inRange (-1) 1 mixVolume) ∧
    (¬ Float64.inRange (-1) 1 mixVolume →
      SetChatMix env s log mixVolume = (.error (.InvalidMixVolumeError mixVolume), log)) := by
  unfold SetChatMix
  by_cases hr : Float64.inRange (-1) 1 mixVolume
  · have ht := (mix_test_false_iff mixVolume).2 (Or.inr hr)
    obtain ⟨body, result, h1, h2⟩ :=
      hserver (s.WebServerAddress ++ "/chatMix?balance=" ++
        marshalled (jsonMarshalFloat env mixVolume))
    rw [ht]
    simp [putAndDecode_ok env log _ body result h1 h2, Outcome.isOk, hr]
  · have ht : (Float64.lt mixVolume Float64.negOne || Float64.gt mixVolume Float64.one) =
        true := by
      cases h : (Float64.lt mixVolume Float64.negOne || Float64.gt mixVolume Float64.one) with
      | true => rfl
      | false =>
        rcases (mix_test_false_iff mixVolume).1 h with h | h
        · exact absurd h hnan
        · exact absurd h hr
    rw [ht]
    simp [Outcome.isOk, hr]

/-- C1, run on the code: NaN is not in [0,1], yet `SetVolume("master", NaN)` on
the classic-mode client built on `echoEnv` passes the range check, makes a PUT
whose value segment is empty (the error of `json.Marshal` is dropped) and
returns the decoded body instead of `InvalidVolumeError`. -/
theorem SetVolume_nan_passes_range_check :
    ¬ Float64.inRange 0 1 .nan ∧
    SetVolume echoEnv (clientIn false) [directoryRequest] "master" .nan [] =
      (.ok [], [directoryRequest,
        ⟨"PUT", "http://127.0.0.1:1/volumeSettings/classic/master/Volume/"⟩]) :=
  ⟨fun h => h, rfl⟩

/-- C2, run on the code: NaN is not in [-1,1], yet `SetChatMix(NaN)` on the
client built on `echoEnv` passes the range check, makes a PUT with an empty
balance (the error of `json.Marshal` is dropped) and returns the decoded body
instead of `InvalidMixVolumeError`. -/
theorem SetChatMix_nan_passes_range_check :
    ¬ Float64.inRange (-1) 1 .nan ∧
    SetChatMix echoEnv (clientIn false) [directoryRequest] .nan =
      (.ok [], [directoryRequest, ⟨"PUT", "http://127.0.0.1:1/chatMix?balance="⟩]) :=
  ⟨fun h => h, rfl⟩

/-! ## Endpoint extraction -/

/-- The two outcomes of the endpoint extraction when the metadata value is a
string: the error for the empty string and for "null", success with the
address stored otherwise. A missing key gives the error as well. -/
theorem extractWebServerAddress_string (s : Sonar) (metadata : JsonMap) :
    (metadata.lookup "webServerAddress" = none →
      extractWebServerAddress s metadata = (.error .WebServerAddressNotFoundError, s)) ∧
    (∀ addr, metadata.lookup "webServerAddress" = some (.string addr) →
      ((addr = "" ∨ addr = "null") →
        (extractWebServerAddress s metadata).1 = .error .WebServerAddressNotFoundError) ∧
      (addr ≠ "" → addr ≠ "null" →
        extractWebServerAddress s metadata = (.ok (), { s with WebServerAddress := addr }))) := by
  refine ⟨fun h => by simp [extractWebServerAddress, h], fun addr h => ⟨?_, ?_⟩⟩
  · rintro (e | e) <;> simp [extractWebServerAddress, h, e]
  · intro h1 h2
    simp [extractWebServerAddress, h, h1, h2]

/-- C9, run on the code: with Sonar enabled, ready and running and the metadata
value of "webServerAddress" the JSON value null, `loadServerAddress` ends in
neither of the two outcomes: the type assertion panics, and so does `New`. A
number as the value does the same. -/
theorem loadServerAddress_panics_on_null :
    loadServerAddress nullAddressEnv
        (loadBaseURL nullAddressEnv (newSonar nullAddressEnv (some "coreProps.json"))).2 [] =
      (.panic "interface conversion: interface {} is nil, not string",
        (loadBaseURL nullAddressEnv (newSonar nullAddressEnv (some "coreProps.json"))).2,
        [directoryRequest]) ∧
    New nullAddressEnv [] (some "coreProps.json") none =
      (.panic "interface conversion: interface {} is nil, not string", [directoryRequest]) ∧
    New (envWith [("webServerAddress", .number (.finite 8080))] echoReply) []
        (some "coreProps.json") none =
      (.panic "interface conversion: interface {} is float64, not string",
        [directoryRequest]) :=
  ⟨rfl, rfl, rfl⟩

end SonarGo
